import Mathlib

/-!
# NormDispOrUnbalance: the OR-combined dual-norm convergence test

A shallow embedding of `SRC/convergenceTest/NormDispOrUnbalance.cpp`.

* C++ `double` values are rationals: comparisons and copies are exact, rounding
  and NaN are outside the model.
* C++ `int` values are integers.  The size `2*maxIter` that the constructor
  passes to `Vector(int)` is computed in 32-bit arithmetic (`wrapInt32`), so a
  size that does not fit an `int` is not the size asked for.  The counter
  (`currentIter++`) and the store indices of `test` are computed on the
  integers.
* `theSOE` is a pointer to a solver-owned linear system; the null pointer is
  `none`.  The two norms `theSOE->getX().pNorm(nType)` and
  `theSOE->getB().pNorm(nType)` are answers of that external system and enter
  `test` as arguments.
* `norms` is a `Vector`; it holds the entries of the buffer and nothing else.
  A store at an index outside the buffer changes no entry of it: in the program
  it is a write past the buffer.  `stores` and `storeIndices` list every store
  of `test` and `storesOutside` those that miss the buffer, so that what a call
  writes outside `norms` can be stated.
* Output on `opserr` changes no state and no return value and is left out.
-/

namespace OpenSees

/-! ## Collaborators that live outside the translated file -/

/-- Modelled from the spec: the `Vector` class (`Vector.h` is outside the
translated source).  The spec describes the history as a fixed-capacity numeric
buffer with indexed read/write and a bulk clear; `theData` lists its entries and
its size is the length of that list. -/
structure Vector where
  theData : List ℚ
  deriving DecidableEq, Repr

namespace Vector

/-- Modelled from the spec: `Vector::Size()`, the number of entries of the
buffer. -/
def Size (v : Vector) : Nat := v.theData.length

/-- Modelled from the spec: `Vector(int size)`, a buffer of `size` entries, all
zero. -/
def ofSize (size : Int) : Vector := ⟨List.replicate size.toNat 0⟩

/-- Modelled from the spec: the bulk clear `Vector::Zero()`; every entry becomes
zero and the size stays. -/
def Zero (v : Vector) : Vector := ⟨List.replicate v.Size 0⟩

/-- Modelled from the spec: `Vector::resize(int)`; the buffer is reallocated
with the new size and its contents zeroed. -/
def resize (_v : Vector) (newSize : Int) : Vector := ⟨List.replicate newSize.toNat 0⟩

/-- Modelled from the spec: whether index `x` names an entry of the buffer,
that is `0 <= x < Size()`. -/
def inRange (v : Vector) (x : Int) : Bool := decide (0 ≤ x) && decide (x < (v.Size : Int))

/-- Modelled from the spec: the indexed write `v(x) = value`.  The buffer has a
fixed capacity: a store at an index that names no entry lands outside the
buffer and leaves every entry as it is.  What such a store overwrites in the
program is not part of the buffer and not part of this model; the stores of
`test` that miss the buffer are listed by `storesOutside`. -/
def assign (v : Vector) (x : Int) (value : ℚ) : Vector :=
  if v.inRange x then ⟨v.theData.set x.toNat value⟩ else v

/-- Modelled from the spec: the indexed read `v(x)`; an index that names no
entry reads as zero. -/
def get (v : Vector) (x : Int) : ℚ :=
  if v.inRange x then v.theData.getD x.toNat 0 else 0

end Vector

/-- The solver-owned linear system, known to the test only through a pointer. -/
structure LinearSOE where
  id : Nat
  deriving DecidableEq, Repr

/-- The driving algorithm; `getLinearSOEptr` is the pointer it hands out
(`none` is the null pointer). -/
structure EquiSolnAlgo where
  getLinearSOEptr : Option LinearSOE

/-- The transport channel: `sendVector dbTag cTag x` returns the result code,
`recvVector dbTag cTag x` returns the result code and the filled vector. -/
structure Channel where
  sendVector : Int → Int → Vector → Int
  recvVector : Int → Int → Vector → Int × Vector

/-- The C++ cast `(int)x` of a real: truncation toward zero. -/
def toInt (x : ℚ) : Int := Int.tdiv x.num (x.den : Int)

/-- The value of an `int` expression whose exact result is `x`: `x` itself when
it lies in `[-2^31, 2^31)`, and otherwise `x` reduced into that range (32-bit
two's complement wrap-around). -/
def wrapInt32 (x : Int) : Int := (x + 2147483648) % 4294967296 - 2147483648

/-! ## The convergence test object -/

/-- The data members of `NormDispOrUnbalance`; `dbTag` is the database tag held
by the `MovableObject` base and read by `getDbTag()`. -/
structure NormDispOrUnbalance where
  theSOE : Option LinearSOE
  tolDisp : ℚ
  tolUnbalance : ℚ
  maxNumIter : Int
  currentIter : Int
  printFlag : Int
  norms : Vector
  nType : Int
  dbTag : Int

namespace NormDispOrUnbalance

/-- The default constructor `NormDispOrUnbalance()`. -/
def ctorDefault : NormDispOrUnbalance where
  theSOE := none
  tolDisp := 0
  tolUnbalance := 0
  maxNumIter := 0
  currentIter := 0
  printFlag := 0
  norms := Vector.ofSize 25
  nType := 2
  dbTag := 0

/-- The constructor
`NormDispOrUnbalance(theTolDisp, theTolUnbalance, maxIter, printIt, normType)`. -/
def ctor (theTolDisp theTolUnbalance : ℚ) (maxIter printIt normType : Int) :
    NormDispOrUnbalance where
  theSOE := none
  tolDisp := theTolDisp
  tolUnbalance := theTolUnbalance
  maxNumIter := maxIter
  currentIter := 0
  printFlag := printIt
  norms := Vector.ofSize (wrapInt32 (2 * maxIter))
  nType := normType
  dbTag := 0

/-- The method `getCopy(iterations)`: the receiver after the call (the method
assigns none of its members) and the copy it returns. -/
def getCopy (s : NormDispOrUnbalance) (iterations : Int) :
    NormDispOrUnbalance × NormDispOrUnbalance :=
  let theCopy := ctor s.tolDisp s.tolUnbalance iterations s.printFlag s.nType
  let theCopy := { theCopy with theSOE := s.theSOE }
  (s, theCopy)

/-- The method `setTolerance(newTolDisp)`. -/
def setTolerance (s : NormDispOrUnbalance) (newTolDisp : ℚ) : NormDispOrUnbalance :=
  { s with tolDisp := newTolDisp }

/-- The method `setEquiSolnAlgo(theAlgo)`: new state and return code. -/
def setEquiSolnAlgo (s : NormDispOrUnbalance) (theAlgo : EquiSolnAlgo) :
    NormDispOrUnbalance × Int :=
  let s1 := { s with theSOE := theAlgo.getLinearSOEptr }
  if s1.theSOE.isNone then (s1, -1) else (s1, 0)

/-- The two stores of `test` into `norms` (source lines 112-115). -/
def recordNorms (s : NormDispOrUnbalance) (normX normB : ℚ) : NormDispOrUnbalance :=
  if s.currentIter ≤ s.maxNumIter then
    let norms1 := s.norms.assign (s.currentIter - 1) normX
    let norms2 := norms1.assign (2 * s.maxNumIter + s.currentIter - 1) normB
    { s with norms := norms2 }
  else s

/-- The stores of one call of `test` into `norms`, in program order, each with
its index and the value stored (source lines 96-115). -/
def stores (s : NormDispOrUnbalance) (normX normB : ℚ) : List (Int × ℚ) :=
  if s.theSOE.isNone then []
  else if s.currentIter = 0 then []
  else if s.currentIter ≤ s.maxNumIter then
    [(s.currentIter - 1, normX), (2 * s.maxNumIter + s.currentIter - 1, normB)]
  else []

/-- The stores of one call of `test` whose index names no entry of `norms`:
what the call writes outside the buffer. -/
def storesOutside (s : NormDispOrUnbalance) (normX normB : ℚ) : List (Int × ℚ) :=
  (s.stores normX normB).filter (fun p => !s.norms.inRange p.1)

/-- The indices at which one call of `test` stores into `norms`. -/
def storeIndices (s : NormDispOrUnbalance) : List Int :=
  if s.theSOE.isNone then []
  else if s.currentIter = 0 then []
  else if s.currentIter ≤ s.maxNumIter then
    [s.currentIter - 1, 2 * s.maxNumIter + s.currentIter - 1]
  else []

/-- The method `test()`: new state and return code.  `normX` and `normB` are the
norms of the solution increment and of the residual at the time of the call. -/
def test (s : NormDispOrUnbalance) (normX normB : ℚ) : NormDispOrUnbalance × Int :=
  if s.theSOE.isNone then (s, -2)
  else if s.currentIter = 0 then (s, -2)
  else
    let s1 := s.recordNorms normX normB
    if normX ≤ s1.tolDisp ∨ normB ≤ s1.tolUnbalance then
      (s1, s1.currentIter)
    else if (s1.printFlag = 5 ∨ s1.printFlag = 6) ∧ s1.currentIter ≥ s1.maxNumIter then
      (s1, s1.currentIter)
    else if s1.currentIter ≥ s1.maxNumIter then
      ({ s1 with currentIter := s1.currentIter + 1 }, -2)
    else
      ({ s1 with currentIter := s1.currentIter + 1 }, -1)

/-- The method `start()`: new state and return code. -/
def start (s : NormDispOrUnbalance) : NormDispOrUnbalance × Int :=
  if s.theSOE.isNone then (s, -1)
  else ({ s with norms := s.norms.Zero, currentIter := 1 }, 0)

/-- The method `getNumTests()`. -/
def getNumTests (s : NormDispOrUnbalance) : Int := s.currentIter

/-- The method `getMaxNumTests()`. -/
def getMaxNumTests (s : NormDispOrUnbalance) : Int := s.maxNumIter

/-- The method `getNorms()`. -/
def getNorms (s : NormDispOrUnbalance) : Vector := s.norms

/-- The 5-entry vector `x` that `sendSelf` fills before it hands it to the
channel (source lines 218-223). -/
def sendData (s : NormDispOrUnbalance) : Vector :=
  let x := Vector.ofSize 5
  let x := x.assign 0 s.tolDisp
  let x := x.assign 4 s.tolUnbalance
  let x := x.assign 1 (s.maxNumIter : ℚ)
  let x := x.assign 2 (s.printFlag : ℚ)
  x.assign 3 (s.nType : ℚ)

/-- The method `sendSelf(cTag, theChannel)`: the object after the call (the
method assigns none of its members) and the return code. -/
def sendSelf (s : NormDispOrUnbalance) (cTag : Int) (theChannel : Channel) :
    NormDispOrUnbalance × Int :=
  let x := s.sendData
  let res := theChannel.sendVector s.dbTag cTag x
  (s, res)

/-- The method `recvSelf(cTag, theChannel, theBroker)`: new state and return
code (the broker is not used by the method). -/
def recvSelf (s : NormDispOrUnbalance) (cTag : Int) (theChannel : Channel) :
    NormDispOrUnbalance × Int :=
  let r := theChannel.recvVector s.dbTag cTag (Vector.ofSize 5)
  let res := r.1
  let x := r.2
  if res < 0 then
    ({ s with
        tolDisp := 1 / 100000000
        maxNumIter := 25
        printFlag := 0
        nType := 2
        norms := s.norms.resize 25 }, res)
  else
    ({ s with
        tolDisp := x.get 0
        tolUnbalance := x.get 4
        maxNumIter := toInt (x.get 1)
        printFlag := toInt (x.get 2)
        nType := toInt (x.get 3)
        norms := s.norms.resize (toInt (x.get 1)) }, res)

/-- A run of consecutive `test()` calls, one per pair `(normX, normB)`: the
final state and the list of return codes in call order. -/
def testSeq (s : NormDispOrUnbalance) : List (ℚ × ℚ) → NormDispOrUnbalance × List Int
  | [] => (s, [])
  | p :: rest =>
    let r := s.test p.1 p.2
    let q := testSeq r.1 rest
    (q.1, r.2 :: q.2)

/-! ## Sequences of calls made by the owner of the object -/

/-- One call on the object: `setEquiSolnAlgo`, `start`, `test` (with the two
norms of the moment), `setTolerance` or `recvSelf`. -/
inductive Op where
  | setEquiSolnAlgo (theAlgo : EquiSolnAlgo)
  | start
  | test (normX normB : ℚ)
  | setTolerance (newTolDisp : ℚ)
  | recvSelf (cTag : Int) (theChannel : Channel)

/-- Whether the call is a `recvSelf`. -/
def Op.isRecvSelf : Op → Bool
  | Op.recvSelf _ _ => true
  | _ => false

/-- The state after one call. -/
def step (s : NormDispOrUnbalance) : Op → NormDispOrUnbalance
  | Op.setEquiSolnAlgo theAlgo => (s.setEquiSolnAlgo theAlgo).1
  | Op.start => s.start.1
  | Op.test normX normB => (s.test normX normB).1
  | Op.setTolerance newTolDisp => s.setTolerance newTolDisp
  | Op.recvSelf cTag theChannel => (s.recvSelf cTag theChannel).1

/-- The state after a sequence of calls, made in list order. -/
def run (s : NormDispOrUnbalance) : List Op → NormDispOrUnbalance
  | [] => s
  | op :: rest => run (s.step op) rest

/-- An algorithm that hands out the linear system number 1. -/
def algoWithSOE : EquiSolnAlgo := ⟨some ⟨1⟩⟩

/-- An algorithm that hands out no linear system. -/
def algoWithoutSOE : EquiSolnAlgo := ⟨none⟩

/-- A test built by the five-argument constructor with tolerances 1e-6 and
1e-4 and norm type 2, then bound with `setEquiSolnAlgo` and started. -/
def running (maxIter printIt : Int) : NormDispOrUnbalance :=
  (((ctor (1 / 1000000) (1 / 10000) maxIter printIt 2).setEquiSolnAlgo algoWithSOE).1.start).1

/-- A channel whose `recvVector` answers with result code `res` and vector `x`,
and whose `sendVector` answers `res`. -/
def fixedChannel (res : Int) (x : Vector) : Channel :=
  ⟨fun _ _ _ => res, fun _ _ _ => (res, x)⟩

/-! ## Basic facts about the embedding -/

theorem recordNorms_theSOE (s : NormDispOrUnbalance) (normX normB : ℚ) :
    (s.recordNorms normX normB).theSOE = s.theSOE := by
  unfold recordNorms; split_ifs <;> rfl

theorem recordNorms_tolDisp (s : NormDispOrUnbalance) (normX normB : ℚ) :
    (s.recordNorms normX normB).tolDisp = s.tolDisp := by
  unfold recordNorms; split_ifs <;> rfl

theorem recordNorms_tolUnbalance (s : NormDispOrUnbalance) (normX normB : ℚ) :
    (s.recordNorms normX normB).tolUnbalance = s.tolUnbalance := by
  unfold recordNorms; split_ifs <;> rfl

theorem recordNorms_maxNumIter (s : NormDispOrUnbalance) (normX normB : ℚ) :
    (s.recordNorms normX normB).maxNumIter = s.maxNumIter := by
  unfold recordNorms; split_ifs <;> rfl

theorem recordNorms_currentIter (s : NormDispOrUnbalance) (normX normB : ℚ) :
    (s.recordNorms normX normB).currentIter = s.currentIter := by
  unfold recordNorms; split_ifs <;> rfl

theorem recordNorms_printFlag (s : NormDispOrUnbalance) (normX normB : ℚ) :
    (s.recordNorms normX normB).printFlag = s.printFlag := by
  unfold recordNorms; split_ifs <;> rfl

theorem recordNorms_nType (s : NormDispOrUnbalance) (normX normB : ℚ) :
    (s.recordNorms normX normB).nType = s.nType := by
  unfold recordNorms; split_ifs <;> rfl

theorem recordNorms_dbTag (s : NormDispOrUnbalance) (normX normB : ℚ) :
    (s.recordNorms normX normB).dbTag = s.dbTag := by
  unfold recordNorms; split_ifs <;> rfl

/-- The value `test` returns when a system is bound and `start` has run and one
of the two tolerances is met. -/
theorem test_of_converged (s : NormDispOrUnbalance) (normX normB : ℚ)
    (hb : s.theSOE.isNone = false) (hs : s.currentIter ≠ 0)
    (h : normX ≤ s.tolDisp ∨ normB ≤ s.tolUnbalance) :
    s.test normX normB = (s.recordNorms normX normB, s.currentIter) := by
  simp [test, hb, hs, recordNorms_tolDisp, recordNorms_tolUnbalance,
    recordNorms_currentIter, h]

/-- The value `test` returns when no tolerance is met and the budget is not yet
used up. -/
theorem test_of_under_budget (s : NormDispOrUnbalance) (normX normB : ℚ)
    (hb : s.theSOE.isNone = false) (hs : s.currentIter ≠ 0)
    (hx : ¬ normX ≤ s.tolDisp) (hu : ¬ normB ≤ s.tolUnbalance)
    (hlt : s.currentIter < s.maxNumIter) :
    s.test normX normB =
      ({ s.recordNorms normX normB with currentIter := s.currentIter + 1 }, -1) := by
  have h1 : ¬ s.maxNumIter ≤ s.currentIter := by omega
  simp [test, hb, hs, recordNorms_tolDisp, recordNorms_tolUnbalance,
    recordNorms_currentIter, recordNorms_maxNumIter, hx, hu, h1]

/-- The value `test` returns when no tolerance is met, the budget is used up and
printFlag is neither 5 nor 6. -/
theorem test_of_exhausted (s : NormDispOrUnbalance) (normX normB : ℚ)
    (hb : s.theSOE.isNone = false) (hs : s.currentIter ≠ 0)
    (hx : ¬ normX ≤ s.tolDisp) (hu : ¬ normB ≤ s.tolUnbalance)
    (hp5 : s.printFlag ≠ 5) (hp6 : s.printFlag ≠ 6)
    (hge : s.maxNumIter ≤ s.currentIter) :
    s.test normX normB =
      ({ s.recordNorms normX normB with currentIter := s.currentIter + 1 }, -2) := by
  simp [test, hb, hs, recordNorms_tolDisp, recordNorms_tolUnbalance,
    recordNorms_currentIter, recordNorms_maxNumIter, recordNorms_printFlag,
    hx, hu, hp5, hp6, hge]

/-- The value `test` returns when no tolerance is met, the budget is used up and
printFlag is 5 or 6. -/
theorem test_of_soft_accept (s : NormDispOrUnbalance) (normX normB : ℚ)
    (hb : s.theSOE.isNone = false) (hs : s.currentIter ≠ 0)
    (hx : ¬ normX ≤ s.tolDisp) (hu : ¬ normB ≤ s.tolUnbalance)
    (hp : s.printFlag = 5 ∨ s.printFlag = 6)
    (hge : s.maxNumIter ≤ s.currentIter) :
    s.test normX normB = (s.recordNorms normX normB, s.currentIter) := by
  simp [test, hb, hs, recordNorms_tolDisp, recordNorms_tolUnbalance,
    recordNorms_currentIter, recordNorms_maxNumIter, recordNorms_printFlag,
    hx, hu, hp, hge]

/-- The state `test` returns is its argument, possibly with the stores of
`recordNorms` applied and possibly with the counter advanced by one. -/
theorem test_state_cases (s : NormDispOrUnbalance) (normX normB : ℚ) :
    (s.test normX normB).1 = s ∨
      (s.test normX normB).1 = s.recordNorms normX normB ∨
      (s.test normX normB).1 =
        { s.recordNorms normX normB with currentIter := s.currentIter + 1 } := by
  simp only [test]
  split_ifs <;> simp [recordNorms_currentIter]

/-- What `test` never touches: the binding. -/
theorem test_theSOE (s : NormDispOrUnbalance) (normX normB : ℚ) :
    (s.test normX normB).1.theSOE = s.theSOE := by
  rcases test_state_cases s normX normB with h | h | h <;> rw [h] <;>
    simp [recordNorms_theSOE]

theorem test_tolDisp (s : NormDispOrUnbalance) (normX normB : ℚ) :
    (s.test normX normB).1.tolDisp = s.tolDisp := by
  rcases test_state_cases s normX normB with h | h | h <;> rw [h] <;>
    simp [recordNorms_tolDisp]

theorem test_tolUnbalance (s : NormDispOrUnbalance) (normX normB : ℚ) :
    (s.test normX normB).1.tolUnbalance = s.tolUnbalance := by
  rcases test_state_cases s normX normB with h | h | h <;> rw [h] <;>
    simp [recordNorms_tolUnbalance]

theorem test_maxNumIter (s : NormDispOrUnbalance) (normX normB : ℚ) :
    (s.test normX normB).1.maxNumIter = s.maxNumIter := by
  rcases test_state_cases s normX normB with h | h | h <;> rw [h] <;>
    simp [recordNorms_maxNumIter]

theorem test_printFlag (s : NormDispOrUnbalance) (normX normB : ℚ) :
    (s.test normX normB).1.printFlag = s.printFlag := by
  rcases test_state_cases s normX normB with h | h | h <;> rw [h] <;>
    simp [recordNorms_printFlag]

theorem test_nType (s : NormDispOrUnbalance) (normX normB : ℚ) :
    (s.test normX normB).1.nType = s.nType := by
  rcases test_state_cases s normX normB with h | h | h <;> rw [h] <;>
    simp [recordNorms_nType]

theorem test_dbTag (s : NormDispOrUnbalance) (normX normB : ℚ) :
    (s.test normX normB).1.dbTag = s.dbTag := by
  rcases test_state_cases s normX normB with h | h | h <;> rw [h] <;>
    simp [recordNorms_dbTag]

theorem testSeq_nil (s : NormDispOrUnbalance) : s.testSeq [] = (s, []) := rfl

theorem testSeq_cons (s : NormDispOrUnbalance) (p : ℚ × ℚ) (rest : List (ℚ × ℚ)) :
    s.testSeq (p :: rest) =
      (((s.test p.1 p.2).1.testSeq rest).1,
        (s.test p.1 p.2).2 :: ((s.test p.1 p.2).1.testSeq rest).2) := rfl

/-- The run of `test` calls behind the soft-accept policy: from a bound state
whose counter is in `[1, maxNumIter]`, with printFlag 5 or 6, calls that never
meet a tolerance return -1 each until the call made at `maxNumIter`, which
returns `maxNumIter` and leaves the counter there. -/
theorem testSeq_soft_accept (ns : List (ℚ × ℚ)) :
    ∀ t : NormDispOrUnbalance, t.theSOE.isNone = false → 1 ≤ t.currentIter →
      t.currentIter ≤ t.maxNumIter → (t.printFlag = 5 ∨ t.printFlag = 6) →
      t.currentIter + (ns.length : Int) = t.maxNumIter + 1 →
      (∀ p ∈ ns, ¬ p.1 ≤ t.tolDisp ∧ ¬ p.2 ≤ t.tolUnbalance) →
      (t.testSeq ns).2 = List.replicate (ns.length - 1) (-1) ++ [t.maxNumIter] ∧
        (t.testSeq ns).1.currentIter = t.maxNumIter := by
  induction ns with
  | nil =>
    intro t _ _ hle _ hlen _
    simp at hlen
    omega
  | cons p rest ih =>
    intro t hb hs _ hpf hlen hun
    have hp := hun p (List.mem_cons_self _ _)
    have hs0 : t.currentIter ≠ 0 := by omega
    cases rest with
    | nil =>
      have hge : t.maxNumIter ≤ t.currentIter := by simp at hlen; omega
      have hlen1 : t.currentIter = t.maxNumIter := by simp at hlen; omega
      simp [testSeq_cons, testSeq_nil,
        test_of_soft_accept t p.1 p.2 hb hs0 hp.1 hp.2 hpf hge, hlen1,
        recordNorms_currentIter]
    | cons q rest2 =>
      have hlt : t.currentIter < t.maxNumIter := by
        simp at hlen; omega
      have hstep := test_of_under_budget t p.1 p.2 hb hs0 hp.1 hp.2 hlt
      have hcur : (t.test p.1 p.2).1.currentIter = t.currentIter + 1 := by rw [hstep]
      have hret : (t.test p.1 p.2).2 = -1 := by rw [hstep]
      have := ih (t.test p.1 p.2).1
        (by rw [test_theSOE]; exact hb) (by rw [hcur]; omega)
        (by rw [hcur, test_maxNumIter]; omega)
        (by rw [test_printFlag]; exact hpf)
        (by rw [hcur, test_maxNumIter]; simp at hlen ⊢; omega)
        (by
          intro r hr
          rw [test_tolDisp, test_tolUnbalance]
          exact hun r (List.mem_cons_of_mem _ hr))
      rw [test_maxNumIter] at this
      rw [testSeq_cons]
      refine ⟨?_, this.2⟩
      simp only [this.1, hret]
      simp [List.replicate_succ]

/-- The counter is never negative: the constructors set it to 0. -/
theorem ctor_currentIter (theTolDisp theTolUnbalance : ℚ) (maxIter printIt normType : Int) :
    (ctor theTolDisp theTolUnbalance maxIter printIt normType).currentIter = 0 := rfl

/-- The counter is never negative: `test` keeps it or adds 1. -/
theorem test_currentIter_nonneg (s : NormDispOrUnbalance) (normX normB : ℚ)
    (h : 0 ≤ s.currentIter) : 0 ≤ (s.test normX normB).1.currentIter := by
  rcases test_state_cases s normX normB with h1 | h1 | h1 <;> rw [h1]
  · exact h
  · rw [recordNorms_currentIter]; exact h
  · show 0 ≤ s.currentIter + 1
    omega

/-- The counter is never negative: `start` keeps it or sets it to 1. -/
theorem start_currentIter_nonneg (s : NormDispOrUnbalance)
    (h : 0 ≤ s.currentIter) : 0 ≤ s.start.1.currentIter := by
  unfold start
  split_ifs <;> simp [h]

/-- An integer stored as a real and cast back by `(int)` is the same integer. -/
theorem toInt_intCast (n : Int) : toInt (n : ℚ) = n := by
  simp [toInt]

/-- The entries of the vector `sendSelf` hands to the channel. -/
theorem sendData_theData (s : NormDispOrUnbalance) :
    s.sendData.theData =
      [s.tolDisp, (s.maxNumIter : ℚ), (s.printFlag : ℚ), (s.nType : ℚ), s.tolUnbalance] := by
  simp [sendData, Vector.assign, Vector.inRange, Vector.Size, Vector.ofSize, List.replicate]

/-- Reading the vector `sendSelf` hands to the channel, entry by entry. -/
theorem sendData_get (s : NormDispOrUnbalance) :
    s.sendData.get 0 = s.tolDisp ∧ s.sendData.get 1 = (s.maxNumIter : ℚ) ∧
      s.sendData.get 2 = (s.printFlag : ℚ) ∧ s.sendData.get 3 = (s.nType : ℚ) ∧
      s.sendData.get 4 = s.tolUnbalance := by
  simp [Vector.get, Vector.inRange, Vector.Size, sendData_theData]

/-- A store keeps the size of the buffer. -/
theorem Vector_assign_Size (v : Vector) (x : Int) (value : ℚ) :
    (v.assign x value).Size = v.Size := by
  unfold Vector.assign
  split_ifs <;> simp [Vector.Size]

/-- The stores of `test` keep the size of `norms`. -/
theorem recordNorms_norms_Size (s : NormDispOrUnbalance) (normX normB : ℚ) :
    (s.recordNorms normX normB).norms.Size = s.norms.Size := by
  unfold recordNorms
  split_ifs
  · simp only [Vector_assign_Size]
  · rfl

/-- A call of `test` keeps the size of `norms`. -/
theorem test_norms_Size (s : NormDispOrUnbalance) (normX normB : ℚ) :
    (s.test normX normB).1.norms.Size = s.norms.Size := by
  rcases test_state_cases s normX normB with h | h | h <;> rw [h]
  · exact recordNorms_norms_Size s normX normB
  · exact recordNorms_norms_Size s normX normB

/-- The size of `norms` after a successful `recvSelf`: the restored `maxNumIter`
(as a size, so none for a negative value), not twice that. -/
theorem recvSelf_success_norms_Size (s : NormDispOrUnbalance) (cTag : Int)
    (theChannel : Channel)
    (hok : ¬ (theChannel.recvVector s.dbTag cTag (Vector.ofSize 5)).1 < 0) :
    (s.recvSelf cTag theChannel).1.norms.Size =
      (s.recvSelf cTag theChannel).1.maxNumIter.toNat := by
  simp [recvSelf, hok, Vector.resize, Vector.Size]

/-- An `int` expression whose exact result fits 32 bits has that result. -/
theorem wrapInt32_of_fits (x : Int) (hlo : -2147483648 ≤ x) (hhi : x < 2147483648) :
    wrapInt32 x = x := by
  unfold wrapInt32
  omega

/-- The indices of `stores` are `storeIndices`. -/
theorem stores_indices (s : NormDispOrUnbalance) (normX normB : ℚ) :
    (s.stores normX normB).map Prod.fst = s.storeIndices := by
  unfold stores storeIndices
  split_ifs <;> rfl

/-- The buffer after a call of `test` is the buffer before it with the stores
of `stores` applied in order. -/
theorem test_norms_stores (s : NormDispOrUnbalance) (normX normB : ℚ) :
    (s.test normX normB).1.norms =
      (s.stores normX normB).foldl (fun v p => v.assign p.1 p.2) s.norms := by
  simp only [test, recordNorms, stores]
  split_ifs <;> simp_all

/-! ## The claims -/

/-- C1 (OR semantics of test): in a bound and started state (currentIter >= 1),
whatever printFlag is, if normX <= tolDisp or normB <= tolUnbalance (either one
alone, equality included) then test returns the current value of currentIter and
leaves currentIter as it is; no relation between currentIter and maxNumIter is
assumed. -/
theorem C1_test_or_semantics (s : NormDispOrUnbalance) (normX normB : ℚ)
    (hbound : s.theSOE.isSome = true) (hstarted : 1 ≤ s.currentIter)
    (hmet : normX ≤ s.tolDisp ∨ normB ≤ s.tolUnbalance) :
    (s.test normX normB).2 = s.currentIter ∧
      (s.test normX normB).1.currentIter = s.currentIter := by
  have hb : s.theSOE.isNone = false := by
    cases h : s.theSOE <;> simp_all
  have hs : s.currentIter ≠ 0 := by omega
  rw [test_of_converged s normX normB hb hs hmet]
  exact ⟨rfl, recordNorms_currentIter s normX normB⟩

/-- C1 run on a concrete state: maxNumIter = 3, the counter already at 3, only
the unbalance tolerance met, with equality. -/
theorem C1_test_or_semantics_witness :
    (({ running 3 0 with currentIter := 3 } : NormDispOrUnbalance).test 1 (1 / 10000)).2 = 3 ∧
      (({ running 3 0 with currentIter := 3 } : NormDispOrUnbalance).test 1
        (1 / 10000)).1.currentIter = 3 :=
  C1_test_or_semantics { running 3 0 with currentIter := 3 } 1 (1 / 10000)
    (by decide) (by decide) (Or.inr (le_refl _))

/-- C3 (soft-accept policy): for every maxNumIter N >= 1 and printFlag 5 or 6,
after a successful setEquiSolnAlgo and start, N calls of test in which neither
tolerance is ever met return -1 on each of the first N-1 calls and the value N
on the N-th call, and currentIter is left at N. -/
theorem C3_soft_accept_policy (s : NormDispOrUnbalance) (theAlgo : EquiSolnAlgo) (N : Nat)
    (ns : List (ℚ × ℚ)) (hN : 1 ≤ N) (hmax : s.maxNumIter = (N : Int))
    (hpf : s.printFlag = 5 ∨ s.printFlag = 6)
    (halgo : theAlgo.getLinearSOEptr.isSome = true) (hlen : ns.length = N)
    (hunmet : ∀ p ∈ ns, ¬ p.1 ≤ s.tolDisp ∧ ¬ p.2 ≤ s.tolUnbalance) :
    (s.setEquiSolnAlgo theAlgo).2 = 0 ∧ ((s.setEquiSolnAlgo theAlgo).1.start).2 = 0 ∧
      (((s.setEquiSolnAlgo theAlgo).1.start).1.testSeq ns).2 =
        List.replicate (N - 1) (-1) ++ [(N : Int)] ∧
      (((s.setEquiSolnAlgo theAlgo).1.start).1.testSeq ns).1.currentIter = (N : Int) := by
  have hb : theAlgo.getLinearSOEptr.isNone = false := by
    cases h : theAlgo.getLinearSOEptr <;> simp_all
  have hrun := testSeq_soft_accept ns ((s.setEquiSolnAlgo theAlgo).1.start).1
    (by simp [setEquiSolnAlgo, start, hb]) (by simp [setEquiSolnAlgo, start, hb])
    (by simp [setEquiSolnAlgo, start, hb, hmax]; omega)
    (by simpa [setEquiSolnAlgo, start, hb] using hpf)
    (by simp [setEquiSolnAlgo, start, hb, hmax, hlen]; omega)
    (by simpa [setEquiSolnAlgo, start, hb] using hunmet)
  have hm : ((s.setEquiSolnAlgo theAlgo).1.start).1.maxNumIter = (N : Int) := by
    simp [setEquiSolnAlgo, start, hb, hmax]
  refine ⟨by simp [setEquiSolnAlgo, hb], by simp [setEquiSolnAlgo, start, hb], ?_, ?_⟩
  · rw [hrun.1, hlen, hm]
  · rw [hrun.2, hm]

/-- C3 run on the spec's example: maxNumIter = 3, printFlag = 5, norms 1 against
tolerances 1e-6 and 1e-4 give -1, -1, 3 and currentIter = 3. -/
theorem C3_soft_accept_policy_witness :
    ((((ctor (1 / 1000000) (1 / 10000) 3 5 2).setEquiSolnAlgo algoWithSOE).1.start).1.testSeq
        [(1, 1), (1, 1), (1, 1)]).2 = [-1, -1, 3] ∧
      ((((ctor (1 / 1000000) (1 / 10000) 3 5 2).setEquiSolnAlgo algoWithSOE).1.start).1.testSeq
        [(1, 1), (1, 1), (1, 1)]).1.currentIter = 3 :=
  (C3_soft_accept_policy (ctor (1 / 1000000) (1 / 10000) 3 5 2) algoWithSOE 3
    [(1, 1), (1, 1), (1, 1)] (by decide) rfl (Or.inl rfl) rfl rfl
    (by intro p hp; simp at hp; subst hp; norm_num [ctor])).2.2

/-- C4 (history layout), evaluated on the code: with maxNumIter = 2 the buffer
has 4 entries; the first call of test, with normX = 3 and normB = 7, returns -1,
stores at the indices 0 and 4, and leaves the entries 3, 0, 0, 0; after the
second call, with normX = 5 and normB = 11, the entries are 3, 5, 0, 0.  The
residual norms 7 and 11 are at none of the indices 2 and 3. -/
theorem C4_history_layout_residual_not_recorded :
    (running 2 0).norms.Size = 4 ∧
      (running 2 0).storeIndices = [0, 4] ∧
      ((running 2 0).testSeq [(3, 7)]).2 = [-1] ∧
      ((running 2 0).testSeq [(3, 7)]).1.norms.theData = [3, 0, 0, 0] ∧
      ((running 2 0).testSeq [(3, 7)]).1.norms.get (2 + 1 - 1) ≠ 7 ∧
      ((running 2 0).testSeq [(3, 7), (5, 11)]).1.norms.Size = 4 ∧
      ((running 2 0).testSeq [(3, 7), (5, 11)]).1.norms.theData = [3, 5, 0, 0] ∧
      ((running 2 0).testSeq [(3, 7), (5, 11)]).1.norms.get (2 + 2 - 1) ≠ 11 := by
  norm_num [running, ctor, setEquiSolnAlgo, start, algoWithSOE, testSeq, test, recordNorms,
    storeIndices, Vector.assign, Vector.get, Vector.inRange, Vector.Size, Vector.Zero,
    Vector.ofSize]
  decide

/-- C5 (monotonic counting): a call of test that returns -1 leaves currentIter
at exactly its previous value plus 1, provided the counter was not negative (it
starts at 0, start sets it to 1, and test only ever adds 1); a call that returns
a non-negative value leaves currentIter unchanged; and getNumTests returns
currentIter, in every state. -/
theorem C5_monotonic_counting (s : NormDispOrUnbalance) (normX normB : ℚ) :
    (0 ≤ s.currentIter → (s.test normX normB).2 = -1 →
        (s.test normX normB).1.currentIter = s.currentIter + 1) ∧
      (0 ≤ (s.test normX normB).2 →
        (s.test normX normB).1.currentIter = s.currentIter) ∧
      s.getNumTests = s.currentIter := by
  refine ⟨?_, ?_, rfl⟩
  · intro hnonneg
    simp only [test]
    split_ifs <;> simp [recordNorms_currentIter] <;> omega
  · simp only [test]
    split_ifs <;> simp [recordNorms_currentIter]

/-- C5 run on concrete states with maxNumIter = 3: the first call after start
with no tolerance met returns -1 and moves the counter from 1 to 2; the same call
with the displacement tolerance met returns 1 and leaves the counter at 1. -/
theorem C5_monotonic_counting_witness :
    (0 ≤ (running 3 0).currentIter ∧ ((running 3 0).test 1 1).2 = -1 ∧
        ((running 3 0).test 1 1).1.currentIter = (running 3 0).currentIter + 1) ∧
      (0 ≤ ((running 3 0).test 0 1).2 ∧
        ((running 3 0).test 0 1).1.currentIter = (running 3 0).currentIter) ∧
      (running 3 0).getNumTests = (running 3 0).currentIter :=
  have hret : ((running 3 0).test 1 1).2 = -1 := by
    norm_num [running, ctor, setEquiSolnAlgo, start, algoWithSOE, test, recordNorms]
  have hconv : 0 ≤ ((running 3 0).test 0 1).2 := by
    norm_num [running, ctor, setEquiSolnAlgo, start, algoWithSOE, test, recordNorms]
  ⟨⟨by decide, hret, (C5_monotonic_counting (running 3 0) 1 1).1 (by decide) hret⟩,
    ⟨hconv, (C5_monotonic_counting (running 3 0) 0 1).2.1 hconv⟩,
    (C5_monotonic_counting (running 3 0) 0 1).2.2⟩

/-- The states a run of `test` calls passes through keep the binding. -/
theorem testSeq_theSOE (ns : List (ℚ × ℚ)) :
    ∀ s : NormDispOrUnbalance, (s.testSeq ns).1.theSOE = s.theSOE := by
  induction ns with
  | nil => intro s; rfl
  | cons p rest ih =>
    intro s
    rw [testSeq_cons]
    exact (ih _).trans (test_theSOE s p.1 p.2)

/-- C6 (reset): for every bound test object and every finite run of test calls
with arbitrary norms, the start that follows returns 0, sets currentIter to 1,
sets every entry of norms to zero while the size of norms stays, and leaves
tolDisp, tolUnbalance, maxNumIter, printFlag, nType and the binding as they
were. -/
theorem C6_start_resets (s : NormDispOrUnbalance) (ns : List (ℚ × ℚ))
    (hbound : s.theSOE.isSome = true) :
    ((s.testSeq ns).1.start).2 = 0 ∧
      ((s.testSeq ns).1.start).1.currentIter = 1 ∧
      ((s.testSeq ns).1.start).1.norms.theData =
        List.replicate (s.testSeq ns).1.norms.Size 0 ∧
      ((s.testSeq ns).1.start).1.norms.Size = (s.testSeq ns).1.norms.Size ∧
      ((s.testSeq ns).1.start).1.tolDisp = (s.testSeq ns).1.tolDisp ∧
      ((s.testSeq ns).1.start).1.tolUnbalance = (s.testSeq ns).1.tolUnbalance ∧
      ((s.testSeq ns).1.start).1.maxNumIter = (s.testSeq ns).1.maxNumIter ∧
      ((s.testSeq ns).1.start).1.printFlag = (s.testSeq ns).1.printFlag ∧
      ((s.testSeq ns).1.start).1.nType = (s.testSeq ns).1.nType ∧
      ((s.testSeq ns).1.start).1.theSOE = (s.testSeq ns).1.theSOE := by
  have hb : (s.testSeq ns).1.theSOE.isNone = false := by
    rw [testSeq_theSOE]
    cases h : s.theSOE <;> simp_all
  simp [start, hb, Vector.Zero, Vector.Size]

/-- C6 run on a concrete state: start after two test calls with maxNumIter = 2. -/
theorem C6_start_resets_witness :
    (((running 2 0).testSeq [(3, 7), (5, 11)]).1.start).2 = 0 ∧
      (((running 2 0).testSeq [(3, 7), (5, 11)]).1.start).1.currentIter = 1 ∧
      (((running 2 0).testSeq [(3, 7), (5, 11)]).1.start).1.norms.theData =
        List.replicate ((running 2 0).testSeq [(3, 7), (5, 11)]).1.norms.Size 0 :=
  have h := C6_start_resets (running 2 0) [(3, 7), (5, 11)] (by decide)
  ⟨h.1, h.2.1, h.2.2.1⟩

/-- C7 (not-ready guard): when no system is bound, or when currentIter is 0,
test returns -2 and the state after the call is the state before it, whatever
the two norms are. -/
theorem C7_not_ready_guard (s : NormDispOrUnbalance) (normX normB : ℚ)
    (h : s.theSOE = none ∨ s.currentIter = 0) :
    s.test normX normB = (s, -2) := by
  rcases h with h | h
  · simp [test, h]
  · simp [test, h]

/-- C7 run on a freshly constructed, never bound test object. -/
theorem C7_not_ready_guard_witness :
    (ctor (1 / 1000000) (1 / 10000) 3 0 2).test 5 7 =
      (ctor (1 / 1000000) (1 / 10000) 3 0 2, -2) :=
  C7_not_ready_guard (ctor (1 / 1000000) (1 / 10000) 3 0 2) 5 7 (Or.inl rfl)

/-- C8 (checkpoint round trip of the configuration): when recvSelf on any
instance reads, with a non-negative result code, the 5-entry vector that sendSelf
of a test object hands to the channel, the restored instance has the tolDisp,
tolUnbalance, maxNumIter, printFlag and nType of that object (an integer stored
as a real and cast back is the same integer), and recvSelf returns the result
code of the read. -/
theorem C8_checkpoint_round_trip (s other : NormDispOrUnbalance) (cTag : Int)
    (theChannel : Channel) (res : Int)
    (hrecv : theChannel.recvVector other.dbTag cTag (Vector.ofSize 5) = (res, s.sendData))
    (hok : 0 ≤ res) :
    s.sendData.Size = 5 ∧
      (other.recvSelf cTag theChannel).2 = res ∧
      (other.recvSelf cTag theChannel).1.tolDisp = s.tolDisp ∧
      (other.recvSelf cTag theChannel).1.tolUnbalance = s.tolUnbalance ∧
      (other.recvSelf cTag theChannel).1.maxNumIter = s.maxNumIter ∧
      (other.recvSelf cTag theChannel).1.printFlag = s.printFlag ∧
      (other.recvSelf cTag theChannel).1.nType = s.nType := by
  have hnot : ¬ res < 0 := by omega
  obtain ⟨h0, h1, h2, h3, h4⟩ := sendData_get s
  refine ⟨by simp [Vector.Size, sendData_theData], ?_⟩
  simp [recvSelf, hrecv, hnot, h0, h1, h2, h3, h4, toInt_intCast]

/-- C8 run on the spec's example: tolerances 1e-6 and 1e-4, maxNumIter = 10,
printFlag = 2, nType = 2, restored into a default-constructed instance. -/
theorem C8_checkpoint_round_trip_witness :
    (ctor (1 / 1000000) (1 / 10000) 10 2 2).sendData.Size = 5 ∧
      (ctorDefault.recvSelf 0
        (fixedChannel 0 (ctor (1 / 1000000) (1 / 10000) 10 2 2).sendData)).2 = 0 ∧
      (ctorDefault.recvSelf 0
        (fixedChannel 0 (ctor (1 / 1000000) (1 / 10000) 10 2 2).sendData)).1.tolDisp
          = 1 / 1000000 ∧
      (ctorDefault.recvSelf 0
        (fixedChannel 0 (ctor (1 / 1000000) (1 / 10000) 10 2 2).sendData)).1.tolUnbalance
          = 1 / 10000 ∧
      (ctorDefault.recvSelf 0
        (fixedChannel 0 (ctor (1 / 1000000) (1 / 10000) 10 2 2).sendData)).1.maxNumIter = 10 ∧
      (ctorDefault.recvSelf 0
        (fixedChannel 0 (ctor (1 / 1000000) (1 / 10000) 10 2 2).sendData)).1.printFlag = 2 ∧
      (ctorDefault.recvSelf 0
        (fixedChannel 0 (ctor (1 / 1000000) (1 / 10000) 10 2 2).sendData)).1.nType = 2 :=
  C8_checkpoint_round_trip (ctor (1 / 1000000) (1 / 10000) 10 2 2) ctorDefault 0
    (fixedChannel 0 (ctor (1 / 1000000) (1 / 10000) 10 2 2).sendData) 0 rfl (le_refl _)

/-- C9 (history size after a successful restore), evaluated on the code: a
successful recvSelf of the record with maxNumIter = 10 (the spec's example)
returns 0, sets maxNumIter to 10 and leaves norms with 10 entries, not 20. -/
theorem C9_restore_success_history_size :
    (ctorDefault.recvSelf 0
        (fixedChannel 0 (ctor (1 / 1000000) (1 / 10000) 10 2 2).sendData)).2 = 0 ∧
      (ctorDefault.recvSelf 0
        (fixedChannel 0 (ctor (1 / 1000000) (1 / 10000) 10 2 2).sendData)).1.maxNumIter = 10 ∧
      (ctorDefault.recvSelf 0
        (fixedChannel 0 (ctor (1 / 1000000) (1 / 10000) 10 2 2).sendData)).1.norms.Size = 10 ∧
      (ctorDefault.recvSelf 0
        (fixedChannel 0 (ctor (1 / 1000000) (1 / 10000) 10 2 2).sendData)).1.norms.Size
          ≠ 2 * 10 := by
  obtain ⟨_, h1, _, _, _⟩ := sendData_get (ctor (1 / 1000000) (1 / 10000) 10 2 2)
  simp only [recvSelf, fixedChannel, h1, toInt_intCast, Vector.resize, Vector.Size]
  simp [ctor]

/-- C10 (restore failure falls back to defaults): when the read of the channel
returns a negative result code, recvSelf returns that code, sets tolDisp to 1e-8,
maxNumIter to 25, printFlag to 0 and nType to 2, leaves norms with 25 entries,
and leaves tolUnbalance, currentIter and the binding at their previous values. -/
theorem C10_restore_failure_defaults (s : NormDispOrUnbalance) (cTag : Int)
    (theChannel : Channel)
    (hfail : (theChannel.recvVector s.dbTag cTag (Vector.ofSize 5)).1 < 0) :
    (s.recvSelf cTag theChannel).2 =
        (theChannel.recvVector s.dbTag cTag (Vector.ofSize 5)).1 ∧
      (s.recvSelf cTag theChannel).1.tolDisp = 1 / 100000000 ∧
      (s.recvSelf cTag theChannel).1.maxNumIter = 25 ∧
      (s.recvSelf cTag theChannel).1.printFlag = 0 ∧
      (s.recvSelf cTag theChannel).1.nType = 2 ∧
      (s.recvSelf cTag theChannel).1.norms.Size = 25 ∧
      (s.recvSelf cTag theChannel).1.tolUnbalance = s.tolUnbalance ∧
      (s.recvSelf cTag theChannel).1.currentIter = s.currentIter ∧
      (s.recvSelf cTag theChannel).1.theSOE = s.theSOE := by
  simp [recvSelf, hfail, Vector.resize, Vector.Size]

/-- C10 run on a concrete state: a bound, started test object with
maxNumIter = 3 and a channel whose read returns -1. -/
theorem C10_restore_failure_defaults_witness :
    ((running 3 1).recvSelf 0 (fixedChannel (-1) (Vector.ofSize 5))).2 = -1 ∧
      ((running 3 1).recvSelf 0 (fixedChannel (-1) (Vector.ofSize 5))).1.tolDisp
        = 1 / 100000000 ∧
      ((running 3 1).recvSelf 0 (fixedChannel (-1) (Vector.ofSize 5))).1.maxNumIter = 25 ∧
      ((running 3 1).recvSelf 0 (fixedChannel (-1) (Vector.ofSize 5))).1.printFlag = 0 ∧
      ((running 3 1).recvSelf 0 (fixedChannel (-1) (Vector.ofSize 5))).1.nType = 2 ∧
      ((running 3 1).recvSelf 0 (fixedChannel (-1) (Vector.ofSize 5))).1.norms.Size = 25 ∧
      ((running 3 1).recvSelf 0 (fixedChannel (-1) (Vector.ofSize 5))).1.tolUnbalance
        = 1 / 10000 ∧
      ((running 3 1).recvSelf 0 (fixedChannel (-1) (Vector.ofSize 5))).1.currentIter = 1 ∧
      ((running 3 1).recvSelf 0 (fixedChannel (-1) (Vector.ofSize 5))).1.theSOE
        = some ⟨1⟩ :=
  C10_restore_failure_defaults (running 3 1) 0 (fixedChannel (-1) (Vector.ofSize 5))
    (by decide)

/-- C11 (serialize wire format): in every state sendSelf hands the channel a
vector of exactly 5 entries, in the order tolDisp, maxNumIter, printFlag, nType,
tolUnbalance (the integers stored as reals), under the object's database tag and
the caller's cTag; it returns the channel's result code as it is, negative or
not; and the object after the call is the object before it. -/
theorem C11_sendSelf_wire_format (s : NormDispOrUnbalance) (cTag : Int)
    (theChannel : Channel) :
    s.sendData.Size = 5 ∧
      s.sendData.theData =
        [s.tolDisp, (s.maxNumIter : ℚ), (s.printFlag : ℚ), (s.nType : ℚ), s.tolUnbalance] ∧
      (s.sendSelf cTag theChannel).2 = theChannel.sendVector s.dbTag cTag s.sendData ∧
      (s.sendSelf cTag theChannel).1 = s := by
  refine ⟨?_, sendData_theData s, rfl, rfl⟩
  simp [Vector.Size, sendData_theData]

/-- C14 (getCopy), evaluated on the code: getCopy(1073741824) asks the
constructor for a buffer of 2 * 1073741824 entries; that product is 2^31, which
as an int is -2147483648, so the copy has maxNumIter = 1073741824 and norms
without 2 * maxNumIter entries. -/
theorem C14_getCopy_size_overflow :
    (0 : Int) ≤ 1073741824 ∧
      wrapInt32 (2 * 1073741824) = -2147483648 ∧
      ((running 3 1).getCopy 1073741824).2.maxNumIter = 1073741824 ∧
      (((running 3 1).getCopy 1073741824).2.norms.Size : Int) ≠ 2 * 1073741824 := by
  refine ⟨by decide, by decide, rfl, ?_⟩
  simp only [getCopy, ctor, Vector.ofSize, Vector.Size, List.length_replicate]
  have h : wrapInt32 (2 * 1073741824) = -2147483648 := by decide
  rw [h]
  decide

/-- C14 as amended: for every state and every iterations M with 0 <= M < 2^30
(so that 2 * M is an int), the copy has the tolDisp, tolUnbalance, printFlag,
nType and binding of the original, maxNumIter = M, norms of size 2 * M, and
currentIter = 0 whatever the counter of the original is; the original after the
call is the original before it. -/
theorem C14_getCopy_in_range (s : NormDispOrUnbalance) (M : Int) (hM : 0 ≤ M)
    (hfit : M < 1073741824) :
    (s.getCopy M).2.tolDisp = s.tolDisp ∧
      (s.getCopy M).2.tolUnbalance = s.tolUnbalance ∧
      (s.getCopy M).2.printFlag = s.printFlag ∧
      (s.getCopy M).2.nType = s.nType ∧
      (s.getCopy M).2.theSOE = s.theSOE ∧
      (s.getCopy M).2.maxNumIter = M ∧
      ((s.getCopy M).2.norms.Size : Int) = 2 * M ∧
      (s.getCopy M).2.currentIter = 0 ∧
      (s.getCopy M).1 = s := by
  refine ⟨rfl, rfl, rfl, rfl, rfl, rfl, ?_, rfl, rfl⟩
  simp only [getCopy, ctor, Vector.ofSize, Vector.Size, List.length_replicate,
    wrapInt32_of_fits (2 * M) (by omega) (by omega)]
  omega

/-- C14 as amended, run on a concrete state: a started test object with
maxNumIter = 3, copied with iterations = 5. -/
theorem C14_getCopy_in_range_witness :
    ((running 3 1).getCopy 5).2.tolDisp = (running 3 1).tolDisp ∧
      ((running 3 1).getCopy 5).2.tolUnbalance = (running 3 1).tolUnbalance ∧
      ((running 3 1).getCopy 5).2.printFlag = (running 3 1).printFlag ∧
      ((running 3 1).getCopy 5).2.nType = (running 3 1).nType ∧
      ((running 3 1).getCopy 5).2.theSOE = (running 3 1).theSOE ∧
      ((running 3 1).getCopy 5).2.maxNumIter = 5 ∧
      (((running 3 1).getCopy 5).2.norms.Size : Int) = 2 * 5 ∧
      ((running 3 1).getCopy 5).2.currentIter = 0 ∧
      ((running 3 1).getCopy 5).1 = running 3 1 :=
  C14_getCopy_in_range (running 3 1) 5 (by decide) (by decide)

/-- C15 (start fails exactly when unbound): in every state start returns -1 if
and only if theSOE is the null pointer, and then the state after the call is the
state before it (currentIter and norms included); in every other state it
returns 0. -/
theorem C15_start_fails_iff_unbound (s : NormDispOrUnbalance) :
    (s.start.2 = -1 ↔ s.theSOE = none) ∧
      (s.theSOE = none → s.start.1 = s) ∧
      (s.theSOE ≠ none → s.start.2 = 0) := by
  cases h : s.theSOE <;> simp [start, h]

/-- C15 run on two concrete states: a never bound object, where start returns
-1 and changes nothing, and a bound one, where it returns 0. -/
theorem C15_start_fails_iff_unbound_witness :
    ((ctor (1 / 1000000) (1 / 10000) 3 0 2).start.2 = -1 ∧
        (ctor (1 / 1000000) (1 / 10000) 3 0 2).start.1 = ctor (1 / 1000000) (1 / 10000) 3 0 2) ∧
      (running 3 0).start.2 = 0 :=
  ⟨⟨(C15_start_fails_iff_unbound (ctor (1 / 1000000) (1 / 10000) 3 0 2)).1.mpr rfl,
      (C15_start_fails_iff_unbound (ctor (1 / 1000000) (1 / 10000) 3 0 2)).2.1 rfl⟩,
    (C15_start_fails_iff_unbound (running 3 0)).2.2 (by decide)⟩

/-- C16 (setEquiSolnAlgo): in every state, a call with an algorithm that hands
out a linear system returns 0 and leaves theSOE pointing to that system,
whatever it pointed to before; a call with an algorithm that hands out none
returns -1; in both cases tolDisp, tolUnbalance, maxNumIter, printFlag, nType,
currentIter and norms are as before. -/
theorem C16_setEquiSolnAlgo (s : NormDispOrUnbalance) (theAlgo : EquiSolnAlgo) :
    (∀ soe, theAlgo.getLinearSOEptr = some soe →
        (s.setEquiSolnAlgo theAlgo).2 = 0 ∧
          (s.setEquiSolnAlgo theAlgo).1.theSOE = some soe) ∧
      (theAlgo.getLinearSOEptr = none → (s.setEquiSolnAlgo theAlgo).2 = -1) ∧
      (s.setEquiSolnAlgo theAlgo).1.tolDisp = s.tolDisp ∧
      (s.setEquiSolnAlgo theAlgo).1.tolUnbalance = s.tolUnbalance ∧
      (s.setEquiSolnAlgo theAlgo).1.maxNumIter = s.maxNumIter ∧
      (s.setEquiSolnAlgo theAlgo).1.printFlag = s.printFlag ∧
      (s.setEquiSolnAlgo theAlgo).1.nType = s.nType ∧
      (s.setEquiSolnAlgo theAlgo).1.currentIter = s.currentIter ∧
      (s.setEquiSolnAlgo theAlgo).1.norms = s.norms := by
  cases h : theAlgo.getLinearSOEptr <;> simp [setEquiSolnAlgo, h]

/-- C16 run on concrete states: a started object bound to system 1 is rebound to
system 2 with return code 0, and a call without a system returns -1. -/
theorem C16_setEquiSolnAlgo_witness :
    (((running 3 0).setEquiSolnAlgo ⟨some ⟨2⟩⟩).2 = 0 ∧
        ((running 3 0).setEquiSolnAlgo ⟨some ⟨2⟩⟩).1.theSOE = some ⟨2⟩) ∧
      ((running 3 0).setEquiSolnAlgo algoWithoutSOE).2 = -1 :=
  ⟨(C16_setEquiSolnAlgo (running 3 0) ⟨some ⟨2⟩⟩).1 ⟨2⟩ rfl,
    (C16_setEquiSolnAlgo (running 3 0) algoWithoutSOE).2.1 rfl⟩

/-- C18 (converged only for a reason): in a bound and started state
(currentIter >= 1), test returns a non-negative value if and only if
normX <= tolDisp, or normB <= tolUnbalance, or printFlag is 5 or 6 and
currentIter >= maxNumIter; in every other case the value is -1 or -2, and it is
-2 exactly when currentIter >= maxNumIter. -/
theorem C18_converged_only_for_a_reason (s : NormDispOrUnbalance) (normX normB : ℚ)
    (hbound : s.theSOE.isSome = true) (hstarted : 1 ≤ s.currentIter) :
    (0 ≤ (s.test normX normB).2 ↔
        (normX ≤ s.tolDisp ∨ normB ≤ s.tolUnbalance ∨
          ((s.printFlag = 5 ∨ s.printFlag = 6) ∧ s.maxNumIter ≤ s.currentIter))) ∧
      (¬ (normX ≤ s.tolDisp ∨ normB ≤ s.tolUnbalance ∨
          ((s.printFlag = 5 ∨ s.printFlag = 6) ∧ s.maxNumIter ≤ s.currentIter)) →
        ((s.test normX normB).2 = -1 ∨ (s.test normX normB).2 = -2) ∧
          ((s.test normX normB).2 = -2 ↔ s.maxNumIter ≤ s.currentIter)) := by
  have hb : s.theSOE.isNone = false := by
    cases h : s.theSOE <;> simp_all
  have hs : s.currentIter ≠ 0 := by omega
  by_cases hx : normX ≤ s.tolDisp
  · have := test_of_converged s normX normB hb hs (Or.inl hx)
    simp [this, hx]; omega
  by_cases hu : normB ≤ s.tolUnbalance
  · have := test_of_converged s normX normB hb hs (Or.inr hu)
    simp [this, hu]; omega
  by_cases hge : s.maxNumIter ≤ s.currentIter
  · by_cases hp : s.printFlag = 5 ∨ s.printFlag = 6
    · have := test_of_soft_accept s normX normB hb hs hx hu hp hge
      simp [this, hx, hu, hp, hge]; omega
    · have hp5 : s.printFlag ≠ 5 := fun h => hp (Or.inl h)
      have hp6 : s.printFlag ≠ 6 := fun h => hp (Or.inr h)
      have := test_of_exhausted s normX normB hb hs hx hu hp5 hp6 hge
      simp [this, hx, hu, hp5, hp6, hge]
  · have hlt : s.currentIter < s.maxNumIter := by omega
    have := test_of_under_budget s normX normB hb hs hx hu hlt
    simp [this, hx, hu, hge]

/-- C18 run on a concrete state: maxNumIter = 3, printFlag = 0, first call after
start, no tolerance met. -/
theorem C18_converged_only_for_a_reason_witness :
    ¬ (0 ≤ ((running 3 0).test 1 1).2) ∧ ((running 3 0).test 1 1).2 = -1 :=
  have h := C18_converged_only_for_a_reason (running 3 0) 1 1 (by decide) (by decide)
  have hno : ¬ ((1 : ℚ) ≤ (running 3 0).tolDisp ∨ (1 : ℚ) ≤ (running 3 0).tolUnbalance ∨
      (((running 3 0).printFlag = 5 ∨ (running 3 0).printFlag = 6) ∧
        (running 3 0).maxNumIter ≤ (running 3 0).currentIter)) := by
    norm_num [running, ctor, setEquiSolnAlgo, start, algoWithSOE]
  have hnot2 : ¬ ((running 3 0).test 1 1).2 = -2 :=
    fun h2 => absurd (((h.2 hno).2).mp h2) (by decide)
  ⟨fun h0 => hno (h.1.mp h0), ((h.2 hno).1).resolve_right hnot2⟩

/-- C20 (a failed setEquiSolnAlgo drops the previous binding): for every bound
object, a call with an algorithm that hands out no linear system returns -1 and
leaves theSOE null, so that the next start returns -1 and the next test returns
-2, whatever the norms. -/
theorem C20_failed_bind_drops_binding (s : NormDispOrUnbalance) (theAlgo : EquiSolnAlgo)
    (normX normB : ℚ) (hbound : s.theSOE.isSome = true)
    (hnone : theAlgo.getLinearSOEptr = none) :
    (s.setEquiSolnAlgo theAlgo).2 = -1 ∧
      (s.setEquiSolnAlgo theAlgo).1.theSOE = none ∧
      (s.setEquiSolnAlgo theAlgo).1.theSOE ≠ s.theSOE ∧
      ((s.setEquiSolnAlgo theAlgo).1.start).2 = -1 ∧
      ((s.setEquiSolnAlgo theAlgo).1.test normX normB).2 = -2 := by
  have hold : s.theSOE ≠ none := by
    cases h : s.theSOE <;> simp_all
  simp [setEquiSolnAlgo, hnone, start, test, Ne.symm hold]

/-- C20 run on a concrete state: a bound and started object with
maxNumIter = 3. -/
theorem C20_failed_bind_drops_binding_witness :
    (running 3 0).theSOE = some ⟨1⟩ ∧
      ((running 3 0).setEquiSolnAlgo algoWithoutSOE).2 = -1 ∧
      ((running 3 0).setEquiSolnAlgo algoWithoutSOE).1.theSOE = none ∧
      ((running 3 0).setEquiSolnAlgo algoWithoutSOE).1.theSOE ≠ (running 3 0).theSOE ∧
      (((running 3 0).setEquiSolnAlgo algoWithoutSOE).1.start).2 = -1 ∧
      (((running 3 0).setEquiSolnAlgo algoWithoutSOE).1.test 0 0).2 = -2 :=
  ⟨rfl, C20_failed_bind_drops_binding (running 3 0) algoWithoutSOE 0 0 (by decide) rfl⟩

/-- One call other than `recvSelf` keeps `maxNumIter` and the size of `norms`. -/
theorem step_norms_Size (s : NormDispOrUnbalance) (op : Op) (hop : op.isRecvSelf = false) :
    (s.step op).maxNumIter = s.maxNumIter ∧ (s.step op).norms.Size = s.norms.Size := by
  cases op with
  | setEquiSolnAlgo theAlgo =>
    simp only [step, setEquiSolnAlgo]; split_ifs <;> exact ⟨rfl, rfl⟩
  | start =>
    simp only [step, start]
    split_ifs
    · exact ⟨rfl, rfl⟩
    · exact ⟨rfl, by simp [Vector.Zero, Vector.Size]⟩
  | test normX normB => exact ⟨test_maxNumIter s normX normB, test_norms_Size s normX normB⟩
  | setTolerance newTolDisp => exact ⟨rfl, rfl⟩
  | recvSelf cTag theChannel => simp [Op.isRecvSelf] at hop

/-- A sequence of calls without `recvSelf` keeps `maxNumIter` and the size of
`norms`. -/
theorem run_norms_Size (ops : List Op) :
    ∀ s : NormDispOrUnbalance, (∀ op ∈ ops, op.isRecvSelf = false) →
      (s.run ops).maxNumIter = s.maxNumIter ∧ (s.run ops).norms.Size = s.norms.Size := by
  induction ops with
  | nil => intro s _; exact ⟨rfl, rfl⟩
  | cons op rest ih =>
    intro s hops
    obtain ⟨hm, hn⟩ := step_norms_Size s op (hops op (List.mem_cons_self _ _))
    obtain ⟨hm2, hn2⟩ := ih (s.step op) (fun o ho => hops o (List.mem_cons_of_mem _ ho))
    exact ⟨by rw [run, hm2, hm], by rw [run, hn2, hn]⟩

/-- C13 (history-length invariant), evaluated on the code: the default
constructor leaves maxNumIter = 0 and norms with 25 entries, and so does the
state after setEquiSolnAlgo, start and one call of test; 25 is not 2 * 0.  The
five-argument constructor with maxIter = 1073741824 asks for 2^31 entries, which
is not an int, and does not leave norms with 2 * maxNumIter entries either. -/
theorem C13_default_ctor_history_length :
    (ctorDefault.run []).maxNumIter = 0 ∧
      (ctorDefault.run []).norms.Size = 25 ∧
      ((ctorDefault.run []).norms.Size : Int) ≠ 2 * (ctorDefault.run []).maxNumIter ∧
      ((ctorDefault.run
          [Op.setEquiSolnAlgo algoWithSOE, Op.start, Op.test 1 1]).norms.Size : Int) ≠
        2 * (ctorDefault.run
          [Op.setEquiSolnAlgo algoWithSOE, Op.start, Op.test 1 1]).maxNumIter ∧
      (((ctor (1 / 1000000) (1 / 10000) 1073741824 0 2).run []).norms.Size : Int) ≠
        2 * ((ctor (1 / 1000000) (1 / 10000) 1073741824 0 2).run []).maxNumIter := by
  have h := run_norms_Size [Op.setEquiSolnAlgo algoWithSOE, Op.start, Op.test 1 1]
    ctorDefault (by simp [Op.isRecvSelf])
  have hw : wrapInt32 2147483648 = -2147483648 := by decide
  rw [h.1, h.2]
  simp [run, ctorDefault, ctor, Vector.ofSize, Vector.Size, hw]

/-- C13 as amended: in every state reached from the five-argument constructor
with 0 <= maxIter < 2^30 (so that 2 * maxIter is an int) by a sequence of
setEquiSolnAlgo, start, test and setTolerance calls, norms has exactly
2 * maxNumIter entries; in every state reached from the default constructor by
such a sequence, norms has 25 entries and maxNumIter is 0. -/
theorem C13_history_length_without_restore (theTolDisp theTolUnbalance : ℚ)
    (maxIter printIt normType : Int) (ops : List Op) (hmax : 0 ≤ maxIter)
    (hfit : maxIter < 1073741824)
    (hops : ∀ op ∈ ops, op.isRecvSelf = false) :
    (((ctor theTolDisp theTolUnbalance maxIter printIt normType).run ops).norms.Size : Int) =
        2 * ((ctor theTolDisp theTolUnbalance maxIter printIt normType).run ops).maxNumIter ∧
      (ctorDefault.run ops).norms.Size = 25 ∧ (ctorDefault.run ops).maxNumIter = 0 := by
  obtain ⟨hm, hn⟩ := run_norms_Size ops
    (ctor theTolDisp theTolUnbalance maxIter printIt normType) hops
  obtain ⟨hm0, hn0⟩ := run_norms_Size ops ctorDefault hops
  rw [hm, hn, hm0, hn0]
  refine ⟨?_, by simp [ctorDefault, Vector.ofSize, Vector.Size], rfl⟩
  simp only [ctor, Vector.ofSize, Vector.Size, List.length_replicate,
    wrapInt32_of_fits (2 * maxIter) (by omega) (by omega)]
  omega

/-- C13 as amended, run on a sequence that uses up the budget: maxNumIter = 2,
setEquiSolnAlgo, start, two calls of test, setTolerance and start again. -/
theorem C13_history_length_without_restore_witness :
    (((ctor (1 / 1000000) (1 / 10000) 2 0 2).run
          [Op.setEquiSolnAlgo algoWithSOE, Op.start, Op.test 3 7, Op.test 5 11,
            Op.setTolerance (1 / 1000), Op.start]).norms.Size : Int) =
        2 * ((ctor (1 / 1000000) (1 / 10000) 2 0 2).run
          [Op.setEquiSolnAlgo algoWithSOE, Op.start, Op.test 3 7, Op.test 5 11,
            Op.setTolerance (1 / 1000), Op.start]).maxNumIter ∧
      (ctorDefault.run
          [Op.setEquiSolnAlgo algoWithSOE, Op.start, Op.test 3 7, Op.test 5 11,
            Op.setTolerance (1 / 1000), Op.start]).norms.Size = 25 ∧
      (ctorDefault.run
          [Op.setEquiSolnAlgo algoWithSOE, Op.start, Op.test 3 7, Op.test 5 11,
            Op.setTolerance (1 / 1000), Op.start]).maxNumIter = 0 :=
  C13_history_length_without_restore (1 / 1000000) (1 / 10000) 2 0 2
    [Op.setEquiSolnAlgo algoWithSOE, Op.start, Op.test 3 7, Op.test 5 11,
      Op.setTolerance (1 / 1000), Op.start]
    (by decide) (by decide) (by simp [Op.isRecvSelf])

/-- Whenever `norms` has `2 * maxNumIter` entries, the counter is not negative
and a call of `test` stores at all, its second store names no entry of the
buffer. -/
theorem storeIndices_second_outside (s : NormDispOrUnbalance)
    (hsize : (s.norms.Size : Int) = 2 * s.maxNumIter) (hnonneg : 0 ≤ s.currentIter)
    (hstores : s.storeIndices ≠ []) :
    s.storeIndices = [s.currentIter - 1, 2 * s.maxNumIter + s.currentIter - 1] ∧
      1 ≤ s.currentIter ∧
      s.norms.inRange (2 * s.maxNumIter + s.currentIter - 1) = false := by
  unfold storeIndices at hstores ⊢
  split_ifs at hstores ⊢ with h1 h2 h3
  all_goals first | exact absurd rfl hstores | skip
  have hpos : 1 ≤ s.currentIter := by omega
  refine ⟨rfl, hpos, ?_⟩
  simp only [Vector.inRange, Bool.and_eq_false_iff, decide_eq_false_iff_not]
  right
  omega

/-- Whenever `norms` has `2 * maxNumIter` entries, the counter is not negative
and a call of `test` stores at all, the store of `normB` is among those that
miss the buffer. -/
theorem storesOutside_second (s : NormDispOrUnbalance) (normX normB : ℚ)
    (hsize : (s.norms.Size : Int) = 2 * s.maxNumIter) (hnonneg : 0 ≤ s.currentIter)
    (hstores : s.stores normX normB ≠ []) :
    (2 * s.maxNumIter + s.currentIter - 1, normB) ∈ s.storesOutside normX normB := by
  have hidx : s.storeIndices ≠ [] := by
    rw [← stores_indices s normX normB]
    simpa using hstores
  obtain ⟨_, _, hout⟩ := storeIndices_second_outside s hsize hnonneg hidx
  unfold storesOutside stores at *
  split_ifs at hstores ⊢ with h1 h2 h3
  all_goals first | exact absurd rfl hstores | skip
  simp [hout]

/-- C17 (history writes stay in bounds), evaluated on the code: with
maxNumIter = 1 the buffer has 2 entries and the first call of test after start
stores at the indices 0 and 2; index 2 names no entry of the buffer.  After that
call (which returns -2 and moves the counter to 2, past maxNumIter) a further
call of test stores at no index. -/
theorem C17_store_outside_buffer :
    (running 1 0).norms.Size = 2 ∧
      (running 1 0).storeIndices = [0, 2] ∧
      (running 1 0).norms.inRange 2 = false ∧
      ((running 1 0).test 3 7).2 = -2 ∧
      ((running 1 0).test 3 7).1.norms.theData = [3, 0] ∧
      ((running 1 0).test 3 7).1.currentIter = 2 ∧
      ((running 1 0).test 3 7).1.storeIndices = [] := by
  norm_num [running, ctor, setEquiSolnAlgo, start, algoWithSOE, test, recordNorms,
    storeIndices, Vector.assign, Vector.inRange, Vector.Size, Vector.Zero, Vector.ofSize]
  decide

/-- C19 (test changes only the counter and the history), evaluated on the code:
with maxNumIter = 3 the buffer has 6 entries; the first call of test after
start, with normX = 3 and normB = 7, returns -1 and makes two stores, the value
3 at index 0 and the value 7 at index 6.  Index 6 names no entry of norms: the
second store is a write outside the history, and the entries after the call are
3, 0, 0, 0, 0, 0. -/
theorem C19_test_writes_outside_history :
    (running 3 0).norms.Size = 6 ∧
      (running 3 0).stores 3 7 = [(0, 3), (6, 7)] ∧
      (running 3 0).storesOutside 3 7 = [(6, 7)] ∧
      ((running 3 0).test 3 7).2 = -1 ∧
      ((running 3 0).test 3 7).1.norms.theData = [3, 0, 0, 0, 0, 0] := by
  norm_num [running, ctor, setEquiSolnAlgo, start, algoWithSOE, test, recordNorms,
    stores, storesOutside, Vector.assign, Vector.inRange, Vector.Size, Vector.Zero,
    Vector.ofSize]
  decide

end NormDispOrUnbalance

end OpenSees
